import Mathlib

/-
Verification of the MIRcatPy device state machine and guarded-call subsystem
(src/mircatpy/MIRcatPy.py, constants from src/mircatpy/MIRcatSDKConstants.py).

Shallow embedding notes:
* Python floats are modelled as exact rationals (ℚ); c_uint8/c_uint16 outputs as ℕ,
  numeric error codes as ℤ (the source occasionally uses the strings "-2"/"-3" as
  codes; they are modelled by the corresponding integers).
* The external MIRcatSDK driver is opaque: each guarded call consumes the next
  entry of an oracle `drv : ℕ → CallResult` giving either a timeout or a completed
  call with its numeric return code and the values written into the output
  parameters.  The arguments marshalled into a call do not constrain the oracle.
* Wall-clock time: the n-th time.time() reading is `clock n`; time.sleep only
  lets wall time pass, which the clock oracle already encodes, so it is a no-op.
* Exceptions are modelled by a result type `Res` that carries the Python object
  state at the moment of the raise (Python exceptions do not roll back mutations).
-/

namespace MIRcatPy

/-! ## Constants (MIRcatSDKConstants.py) -/

def MIRcatSDK_RET_SUCCESS : ℤ := 0

def MIRcatSDK_UNITS_MICRONS : ℕ := 1

def MIRcatSDK_UNITS_CM1 : ℕ := 2

/-- The `error_messages` dictionary from MIRcatSDKConstants.py: driver return
codes mapped to human-readable messages.  Keys are the `.value` fields of the
`c_uint32` constants; the key-0 entry comes from `MIRcatSDK_MODE_ERROR`. -/
def error_messages : ℤ → Option String := fun ret =>
  match ret with
  | 1 => some "Unsupported transport type."
  | 32 => some "Initialization failure."
  | 64 => some "Failed to arm/disarm the laser."
  | 65 => some "Failed to start tuning."
  | 66 => some "Interlocks or key switch not set."
  | 67 => some "Failed to stop the scan."
  | 68 => some "Failed to pause the scan."
  | 69 => some "Failed to resume the scan."
  | 70 => some "Failed to manually step scan."
  | 71 => some "Failed to start sweep scan."
  | 72 => some "Failed to start step-measure scan."
  | 73 => some "Index out of bounds."
  | 74 => some "Failed to start multi-spectral scan."
  | 75 => some "Too many elements specified."
  | 76 => some "Not enough elements specified."
  | 77 => some "Buffer too small."
  | 78 => some "Favorite name not recognized."
  | 79 => some "Failed to recall favorite."
  | 80 => some "Wavelength out of tuning range."
  | 81 => some "No scan in progress."
  | 82 => some "Failed to turn emission on."
  | 83 => some "Emission already off."
  | 84 => some "Failed to turn emission off."
  | 85 => some "Emission already on."
  | 86 => some "Pulse rate out of range."
  | 87 => some "Pulse width out of range."
  | 88 => some "Current out of range."
  | 89 => some "Failed to save settings."
  | 90 => some "QCL number out of range."
  | 91 => some "Laser already armed."
  | 92 => some "Laser already disarmed."
  | 93 => some "Laser not armed."
  | 94 => some "Laser not tuned."
  | 95 => some "TEC not at set temperature."
  | 96 => some "CW not allowed on specified QCL."
  | 97 => some "Invalid laser mode."
  | 98 => some "Temperature out of range."
  | 99 => some "Failed to power off the laser."
  | 100 => some "Communication error."
  | 101 => some "SDK not initialized."
  | 102 => some "Instance already created."
  | 103 => some "Failed to start advanced sweep scan."
  | 104 => some "Failed to inject process trigger."
  | 0 => some "Invalid laser mode specified."
  | _ => none

/-! ## Exceptions -/

/-- Python exceptions raised by the code under verification.
`mircatError code message` is `MIRcatError(code, message)` (codes given as
strings in the source, "-2" and "-3", are modelled by the integers -2 and -3).
`timeoutError timeout target` is the built-in `TimeoutError` raised by
`wait_till`; its f-string message interpolates exactly the timeout and the
target, modelled structurally as that pair.  `indexError` is the built-in
`IndexError` from an out-of-range list subscript. -/
inductive PyError where
  | mircatError (code : ℤ) (message : String)
  | timeoutError (timeout : ℚ) (target : String)
  | indexError
  deriving DecidableEq, Repr

/-! ## The opaque driver -/

/-- Values produced by one completed driver call: the numeric return code and
the contents the driver wrote into the output (byref) parameters.  A call that
needs fewer outputs reads `b1`/`n1`/`q1`/`u1` first; `MIRcatSDK_GetScanStatus`
uses `b1..b5`, `n1`, `n2`, `q1`, `u1`; `MIRcatSDK_GetAPIVersion` uses
`n1`, `n2`, `n3`. -/
structure DriverReply where
  ret : ℤ := 0
  b1 : Bool := false
  b2 : Bool := false
  b3 : Bool := false
  b4 : Bool := false
  b5 : Bool := false
  n1 : ℕ := 0
  n2 : ℕ := 0
  n3 : ℕ := 0
  q1 : ℚ := 0
  u1 : ℕ := 0
  deriving DecidableEq, Repr

/-- Outcome of one guarded driver call: either the worker thread is still alive
when the join timeout expires, or the call completed with a reply. -/
inductive CallResult where
  | timeout
  | completed (r : DriverReply)
  deriving DecidableEq, Repr

/-! ## Snapshots and object state -/

/-- The `self._status` dictionary.  Each "?" entry (unknown, pending first
read) is `none`; a value read from the driver is `some _`.  The `connected`
entry is initialised to `False` (not "?") in `_initialize`. -/
structure StatusSnap where
  connected : Bool := false
  numQCLs : Option ℕ := none
  isInterlockSet : Option Bool := none
  isKeySwitchSet : Option Bool := none
  isEmitting : Option Bool := none
  isArmed : Option Bool := none
  isTuned : Option Bool := none
  wl : Option ℚ := none
  wn : Option ℚ := none
  deriving DecidableEq, Repr

/-- The `self._scan_status` dictionary ("?" entries are `none`).  The dict
built by the `scanStatus` property replaces the whole dictionary and carries no
"units" key; that absence is also modelled by `none`. -/
structure ScanSnap where
  isScanInProgress : Option Bool := none
  isScanActive : Option Bool := none
  isScanPaused : Option Bool := none
  curScanRepetition : Option ℕ := none
  curScanPercent : Option ℕ := none
  curWW : Option ℚ := none
  units : Option ℕ := none
  isTECInProgress : Option Bool := none
  isMotionInProgress : Option Bool := none
  wl : Option ℚ := none
  wn : Option ℚ := none
  deriving DecidableEq, Repr

/-- The MIRcat object state together with the two oracles for its environment:
`drv n` is the outcome of the (n+1)-th guarded driver call (`k` counts issued
calls), `clock n` is the (n+1)-th `time.time()` reading (`tk` counts them).
The plain display attributes (`APIversion`, `numQCLs`, `isInterlockSet`,
`isKeySwitchSet` set on `self` outside the snapshot dictionaries) are not
modelled. -/
structure Laser where
  drv : ℕ → CallResult
  clock : ℕ → ℚ
  k : ℕ := 0
  tk : ℕ := 0
  st : StatusSnap := {}
  scanSt : ScanSnap := {}

/-! ## Effect model -/

/-- Result of running a Python computation: a returned value or a raised
exception, in both cases with the object state as left by the run. -/
inductive Res (α : Type) where
  | ok (a : α) (s : Laser)
  | err (e : PyError) (s : Laser)

/-- State-and-exception monad over the MIRcat object state. -/
def M (α : Type) : Type := Laser → Res α

instance : Monad M where
  pure a := fun s => Res.ok a s
  bind x f := fun s =>
    match x s with
    | Res.ok a s' => f a s'
    | Res.err e s' => Res.err e s'

def throwE {α : Type} (e : PyError) : M α := fun s => Res.err e s

def modifyS (f : Laser → Laser) : M Unit := fun s => Res.ok () (f s)

def getS : M Laser := fun s => Res.ok s s

def Res.stateOf {α : Type} : Res α → Laser
  | Res.ok _ s => s
  | Res.err _ s => s

def Res.isOk {α : Type} : Res α → Bool
  | Res.ok _ _ => true
  | Res.err _ _ => false

def Res.errorOf {α : Type} : Res α → Option PyError
  | Res.ok _ _ => none
  | Res.err e _ => some e

instance {ε α : Type} [DecidableEq ε] [DecidableEq α] : DecidableEq (Except ε α)
  | Except.ok a, Except.ok b =>
    if h : a = b then Decidable.isTrue (congrArg Except.ok h)
    else Decidable.isFalse fun hc => h (Except.ok.inj hc)
  | Except.ok _, Except.error _ => Decidable.isFalse fun hc => Except.noConfusion hc
  | Except.error _, Except.ok _ => Decidable.isFalse fun hc => Except.noConfusion hc
  | Except.error e, Except.error f =>
    if h : e = f then Decidable.isTrue (congrArg Except.error h)
    else Decidable.isFalse fun hc => h (Except.error.inj hc)

@[simp] lemma bind_apply {α β : Type} (x : M α) (f : α → M β) (s : Laser) :
    (x >>= f) s =
      match x s with
      | Res.ok a s' => f a s'
      | Res.err e s' => Res.err e s' := rfl

@[simp] lemma pure_apply {α : Type} (a : α) (s : Laser) :
    (pure a : M α) s = Res.ok a s := rfl

@[simp] lemma throwE_apply {α : Type} (e : PyError) (s : Laser) :
    (throwE e : M α) s = Res.err e s := rfl

@[simp] lemma modifyS_apply (f : Laser → Laser) (s : Laser) :
    modifyS f s = Res.ok () (f s) := rfl

/-! ## Module-level functions (MIRcatPy.py) -/

/-- Model of `check_return_value(ret, success_code)`: raises `MIRcatError(ret, msg)` for
any return value other than the success code, with the message looked up in
`error_messages` and defaulting to "Unknown error occurred". -/
def check_return_value (ret : ℤ) (success_code : ℤ) : Except PyError Bool :=
  if ret ≠ success_code then
    Except.error (PyError.mircatError ret ((error_messages ret).getD "Unknown error occurred"))
  else
    Except.ok true

/-- Model of `call_sdk`, the closure `call_with_timeout` hands to the worker thread:
it invokes the SDK entry point and applies `check_return_value` (with the
default success code `MIRcatSDK_RET_SUCCESS.value = 0`) to the returned code.
Its outcome stays inside the worker thread. -/
def call_sdk (ret : ℤ) : Except PyError Bool :=
  check_return_value ret MIRcatSDK_RET_SUCCESS

/-- Model of `call_with_timeout(sdk_function, timeout, *args)`: starts a thread running
`call_sdk`, joins it with the timeout, and raises `MIRcatError("-2", ...)` only
when the thread is still alive afterwards.  An exception `call_sdk` raises for
a nonzero return code is handled by `threading`'s excepthook inside the worker
(printed to stderr) and is NOT re-raised in the joining thread, so a completed
call returns normally to the caller no matter what its return code was; the
reply's output parameters are what the caller goes on to read. -/
def call_with_timeout : M DriverReply := fun s =>
  match s.drv s.k with
  | CallResult.timeout =>
      Res.err (PyError.mircatError (-2) "SDK call timed out.") { s with k := s.k + 1 }
  | CallResult.completed r => Res.ok r { s with k := s.k + 1 }

/-- One `time.time()` reading. -/
def time_time : M ℚ := fun s => Res.ok (s.clock s.tk) { s with tk := s.tk + 1 }

/-- Model of `time.sleep(delay)`: wall-clock passage is encoded in the clock oracle, so
sleeping has no further observable effect in the model. -/
def time_sleep (_delay : ℚ) : M Unit := pure ()

/-- The body of `wait_till`'s `while True` loop, with the loop made structural
on a fuel argument (`pure none` = fuel exhausted while the Python loop would
still be running; no run of the source loop corresponds to that outcome).
Progress-bar printing is display-only and not modelled. -/
def wait_till_loop {V : Type} [DecidableEq V] [ToString V]
    (function : M V) (target : V) (delay timeout start_time : ℚ) :
    ℕ → M (Option Bool)
  | 0 => pure none
  | fuel + 1 => do
    let current_value ← function
    if current_value = target then
      pure (some true)
    else do
      let now ← time_time
      let elapsed_time := now - start_time
      if elapsed_time > timeout then
        throwE (PyError.timeoutError timeout (toString target))
      else do
        time_sleep delay
        wait_till_loop function target delay timeout start_time fuel

/-- Model of `wait_till(function, target=True, delay=0.5, timeout=10)`: reads
`start_time = time.time()`, then polls `function()` until it equals `target`
(returning `True`), raising the built-in `TimeoutError` when the elapsed time
measured after a non-matching probe exceeds the timeout.  The f-string message
interpolates the timeout and the target. -/
def wait_till {V : Type} [DecidableEq V] [ToString V]
    (function : M V) (target : V) (delay timeout : ℚ) (fuel : ℕ) : M (Option Bool) := do
  let start_time ← time_time
  wait_till_loop function target delay timeout start_time fuel

/-! ## MIRcat methods -/

/-- Model of `is_connected()`: one guarded `MIRcatSDK_IsConnectedToLaser` call; returns
the `c_bool` output (initialised `False`, so that is its value if the driver
did not write it). -/
def is_connected : M Bool := do
  let r ← call_with_timeout
  pure r.b1

/-- The `requires_connection` decorator exactly as written in the source:

    if self.is_connected():
        raise MIRcatError(code="-3", message="Operation requires connection to MIRCat laser.")
    return func(self, *args, **kwargs)

Note the condition: it raises when `is_connected()` returns True and runs the
wrapped method when it returns False. -/
def requires_connection {α : Type} (func : M α) : M α := do
  let c ← is_connected
  if c then
    throwE (PyError.mircatError (-3) "Operation requires connection to MIRCat laser.")
  else
    func

/-- Model of `_get_api_version()`: one guarded `MIRcatSDK_GetAPIVersion` call; the
version string it formats onto `self.APIversion` is display data, not part of
either snapshot. -/
def get_api_version : M Unit := do
  let _ ← call_with_timeout
  pure ()

/-- Model of `_initialize()`: colorama `init()` (display only), `_get_api_version()`,
then both snapshot dictionaries are (re)set to their initial contents —
every field "?" except `connected = False`. -/
def initializeFields : M Unit := do
  get_api_version
  modifyS fun s => { s with st := {}, scanSt := {} }

/-- Model of `connect()`: guarded `MIRcatSDK_Initialize`, then
`wait_till(self.is_connected)` with the default target/delay/timeout. -/
def connect (fuel : ℕ) : M (Option Bool) := do
  let _ ← call_with_timeout
  wait_till is_connected true 0.5 10 fuel

/-- Model of `disconnect()` (decorated with `requires_connection`): guarded
`MIRcatSDK_DeInitialize`, then `wait_till(self.is_connected, False)`. -/
def disconnect (fuel : ℕ) : M (Option Bool) :=
  requires_connection do
    let _ ← call_with_timeout
    wait_till is_connected false 0.5 10 fuel

/-- Model of `get_num_qcls()` (guarded): reads the installed-QCL count; the extra copy
stored on `self.numQCLs` is outside the snapshot and not modelled. -/
def get_num_qcls : M ℕ :=
  requires_connection do
    let r ← call_with_timeout
    pure r.n1

/-- Model of `get_interlock_status()` (guarded). -/
def get_interlock_status : M Bool :=
  requires_connection do
    let r ← call_with_timeout
    pure r.b1

/-- Model of `get_key_switch_status()` (guarded). -/
def get_key_switch_status : M Bool :=
  requires_connection do
    let r ← call_with_timeout
    pure r.b1

/-- Model of `get_laser_armed_status()` (guarded): reads the armed flag and stores it
into `self._status["isArmed"]`. -/
def get_laser_armed_status : M Bool :=
  requires_connection do
    let r ← call_with_timeout
    modifyS fun s => { s with st := { s.st with isArmed := some r.b1 } }
    pure r.b1

/-- Model of `check_laser_emission()` (guarded): reads the emission flag and stores it
into `self._status["isEmitting"]`. -/
def check_laser_emission : M Bool :=
  requires_connection do
    let r ← call_with_timeout
    modifyS fun s => { s with st := { s.st with isEmitting := some r.b1 } }
    pure r.b1

/-- Model of `is_tuned()` (guarded): reads the tuned flag and stores it into
`self._status["isTuned"]`. -/
def is_tuned : M Bool :=
  requires_connection do
    let r ← call_with_timeout
    modifyS fun s => { s with st := { s.st with isTuned := some r.b1 } }
    pure r.b1

/-- Model of `_ww_interpreter(val, unit)`: Python's pre-ternary idiom
`wl and 1e4 / wl or 0` yields `0` exactly when `wl` is falsy (0.0) and
`1e4 / wl` otherwise (in exact rational arithmetic `1e4 / wl` is never falsy
for `wl ≠ 0`, so the trailing `or 0` fires only for `wl = 0`). -/
def ww_interpreter (val : ℚ) (unit : ℕ) : ℚ × ℚ :=
  if unit = MIRcatSDK_UNITS_MICRONS then
    let wl := val
    let wn := if wl = 0 then 0 else 1e4 / wl
    (wl, wn)
  else
    let wn := val
    let wl := if wn = 0 then 0 else 1e4 / wn
    (wl, wn)

/-- Model of `get_ww()` (guarded): one `MIRcatSDK_GetActualWW` call, then both
`self._status["wl"]` and `self._status["wn"]` are set from `_ww_interpreter`
applied to the value/units outputs, and the pair is returned. -/
def get_ww : M (ℚ × ℚ) :=
  requires_connection do
    let r ← call_with_timeout
    let p := ww_interpreter r.q1 r.u1
    modifyS fun s => { s with st := { s.st with wl := some p.1, wn := some p.2 } }
    pure p

/-- Model of `arm_laser()` (guarded): `MIRcatSDK_ArmLaser`, then
`wait_till(self.get_laser_armed_status)`. -/
def arm_laser (fuel : ℕ) : M (Option Bool) :=
  requires_connection do
    let _ ← call_with_timeout
    wait_till get_laser_armed_status true 0.5 10 fuel

/-- Model of `disarm_laser()` (guarded): `MIRcatSDK_DisArmLaser`, then
`wait_till(self.get_laser_armed_status, False)`. -/
def disarm_laser (fuel : ℕ) : M (Option Bool) :=
  requires_connection do
    let _ ← call_with_timeout
    wait_till get_laser_armed_status false 0.5 10 fuel

/-- The unit-mode tags accepted by `tune`/`startSweepScan`
(`modes = {"wl": MIRcatSDK_UNITS_MICRONS, "wn": MIRcatSDK_UNITS_CM1}`). -/
inductive WWMode where
  | wl
  | wn
  deriving DecidableEq, Repr

/-- Model of `tune(mode, target)` (guarded): `MIRcatSDK_TuneToWW` with the resolved unit
tag, then `wait_till(self.is_tuned, True, 0.5, 30)`; the wait's value is
discarded and the method returns None. -/
def tune (_mode : WWMode) (_target : ℚ) (fuel : ℕ) : M Unit :=
  requires_connection do
    let _ ← call_with_timeout
    let _ ← wait_till is_tuned true 0.5 30 fuel
    pure ()

/-- Model of `enable_emission()` (guarded): `MIRcatSDK_TurnEmissionOn`, then
`wait_till(self.check_laser_emission)`. -/
def enable_emission (fuel : ℕ) : M (Option Bool) :=
  requires_connection do
    let _ ← call_with_timeout
    wait_till check_laser_emission true 0.5 10 fuel

/-- Model of `disable_emission()` (guarded): `MIRcatSDK_TurnEmissionOff`, then
`wait_till(self.check_laser_emission, False)`. -/
def disable_emission (fuel : ℕ) : M (Option Bool) :=
  requires_connection do
    let _ ← call_with_timeout
    wait_till check_laser_emission false 0.5 10 fuel

/-- The `status` property: re-reads every field while the driver reports
connected (each getter re-checks the inverted guard itself); otherwise only
sets `self._status["connected"] = False`.  No branch ever assigns `True` to
the `connected` entry. -/
def status : M StatusSnap := do
  let c ← is_connected
  if c then do
    let n ← get_num_qcls
    modifyS fun s => { s with st := { s.st with numQCLs := some n } }
    let il ← get_interlock_status
    modifyS fun s => { s with st := { s.st with isInterlockSet := some il } }
    let ks ← get_key_switch_status
    modifyS fun s => { s with st := { s.st with isKeySwitchSet := some ks } }
    let ar ← get_laser_armed_status
    modifyS fun s => { s with st := { s.st with isArmed := some ar } }
    let em ← check_laser_emission
    modifyS fun s => { s with st := { s.st with isEmitting := some em } }
    let tu ← is_tuned
    modifyS fun s => { s with st := { s.st with isTuned := some tu } }
    let p ← get_ww
    modifyS fun s => { s with st := { s.st with wl := some p.1, wn := some p.2 } }
  else
    modifyS fun s => { s with st := { s.st with connected := false } }
  let s ← getS
  pure s.st

/-- Model of `get_QCL_PulseRate(QCLnum)` (guarded). -/
def get_QCL_PulseRate (_QCLnum : ℕ) : M ℚ :=
  requires_connection do
    let r ← call_with_timeout
    pure r.q1

/-- Model of `get_QCL_PulseWidth(QCLnum)` (guarded). -/
def get_QCL_PulseWidth (_QCLnum : ℕ) : M ℚ :=
  requires_connection do
    let r ← call_with_timeout
    pure r.q1

/-- Model of `get_QCL_Current(QCLnum)` (guarded). -/
def get_QCL_Current (_QCLnum : ℕ) : M ℚ :=
  requires_connection do
    let r ← call_with_timeout
    pure r.q1

/-- The per-channel parameter dictionary returned by `get_QCL_params`. -/
structure QCLParams where
  QCLnum : ℕ
  puls_rate : ℚ
  puls_width : ℚ
  current : ℚ
  deriving DecidableEq, Repr

/-- Model of `get_QCL_params(QCLnum)` (guarded): three guarded reads aggregated. -/
def get_QCL_params (QCLnum : ℕ) : M QCLParams :=
  requires_connection do
    let r ← get_QCL_PulseRate QCLnum
    let w ← get_QCL_PulseWidth QCLnum
    let c ← get_QCL_Current QCLnum
    pure ⟨QCLnum, r, w, c⟩

/-- Model of `get_QCL_params_all()` (guarded): the `for QCLnum in [1, 2, 3, 4]` loop
accumulating the four per-channel reads in order. -/
def get_QCL_params_all : M (List QCLParams) :=
  requires_connection do
    let p1 ← get_QCL_params 1
    let p2 ← get_QCL_params 2
    let p3 ← get_QCL_params 3
    let p4 ← get_QCL_params 4
    pure [p1, p2, p3, p4]

/-- Model of `cur_limits = [800, 820, 630, 950]` (comment in source: "Estimated from
default values + 10%"). -/
def cur_limits : List ℚ := [800, 820, 630, 950]

/-- The validation prefix of `set_QCL_params`, extracted verbatim and in
source order: duty cycle is computed first, then the checks run in the order
channel, pulse rate, duty cycle, pulse width, current.  The current bound is
`cur_limits[QCLnum]` — the list subscript uses the 1-based channel number
directly, so channel 4 raises `IndexError` (modelled by the `none` branch of
the safe lookup) and channels 1–3 read the entries at positions 1–3. -/
def validate_QCL_params (QCLnum : ℕ) (puls_rate puls_width current : ℚ) :
    Except PyError Unit :=
  let duty_cycle := 1e-6 * puls_rate * puls_width
  if QCLnum ∉ ([1, 2, 3, 4] : List ℕ) then
    Except.error (PyError.mircatError (-1) "Wrong QCLnum: must be one of 1,2,3,4")
  else if puls_rate < 10 ∨ puls_rate > 100000 then
    Except.error (PyError.mircatError (-1) "Puls rate limit: 10 <= puls rate <= 100000")
  else if duty_cycle < 0 ∨ duty_cycle > 5 then
    Except.error (PyError.mircatError (-1) "Duty cycle limit: 0% <= duty cycle <= 5%")
  else if puls_width < 0 ∨ puls_width > 100 then
    Except.error (PyError.mircatError (-1) "Duty cycle limit: 0 <= puls width <= 100")
  else
    match cur_limits[QCLnum]? with
    | none => Except.error PyError.indexError
    | some lim =>
      if current < 0 ∨ current > lim then
        Except.error (PyError.mircatError (-1)
          ("Current limit: 0 <= current <= " ++ toString lim))
      else
        Except.ok ()

/-- Model of `set_QCL_params(QCLnum, puls_rate, puls_width, current)` (guarded): the
validation chain above, then one guarded `MIRcatSDK_SetQCLParams` call. -/
def set_QCL_params (QCLnum : ℕ) (puls_rate puls_width current : ℚ) : M Unit :=
  requires_connection do
    match validate_QCL_params QCLnum puls_rate puls_width current with
    | Except.error e => throwE e
    | Except.ok () => do
      let _ ← call_with_timeout
      pure ()

/-- Model of `startSweepScan(mode, start, end, speed, repetitions=1, bidirectional=False)`
(guarded): a single guarded `MIRcatSDK_StartSweepScan` call. -/
def startSweepScan (_mode : WWMode) (_start _end _speed : ℚ)
    (_repetitions : ℕ) (_bidirectional : Bool) : M Unit :=
  requires_connection do
    let _ ← call_with_timeout
    pure ()

/-- Model of `stopScan()` (guarded). -/
def stopScan : M Unit :=
  requires_connection do
    let _ ← call_with_timeout
    pure ()

/-- Model of `pauseScan()` (guarded). -/
def pauseScan : M Unit :=
  requires_connection do
    let _ ← call_with_timeout
    pure ()

/-- Model of `resumeScan()` (guarded). -/
def resumeScan : M Unit :=
  requires_connection do
    let _ ← call_with_timeout
    pure ()

/-- The `scanStatus` property (guarded): one multi-output
`MIRcatSDK_GetScanStatus` call, wavelength pair derived through
`_ww_interpreter`, and `self._scan_status` replaced wholesale by the new
dictionary (which carries no "units" key). -/
def scanStatus : M ScanSnap :=
  requires_connection do
    let r ← call_with_timeout
    let p := ww_interpreter r.q1 r.u1
    let snap : ScanSnap :=
      { isScanInProgress := some r.b1
        isScanActive := some r.b2
        isScanPaused := some r.b3
        curScanRepetition := some r.n1
        curScanPercent := some r.n2
        curWW := some r.q1
        units := none
        isTECInProgress := some r.b4
        isMotionInProgress := some r.b5
        wl := some p.1
        wn := some p.2 }
    modifyS fun s => { s with scanSt := snap }
    pure snap

/-- Model of `__del__` as CPython runs it: the body is the bare `self.disconnect()`;
any exception escaping a `__del__` body is caught by the interpreter, reported
through `sys.unraisablehook` ("Exception ignored in ...") and discarded, never
propagated to whatever triggered the destruction.  The catch below is that
interpreter boundary, not a try/except in the repository code. -/
def del_teardown (fuel : ℕ) : M Unit := fun s =>
  match disconnect fuel s with
  | Res.ok _ s' => Res.ok () s'
  | Res.err _ s' => Res.ok () s'

/-! ## Concrete environments used by the claim theorems -/

/-- Oracle: every driver call completes with return code 0 and all outputs at
their ctypes defaults; in particular `b1 = false`, so the instrument reports
not connected. -/
def drvNotConnected : ℕ → CallResult := fun _ => CallResult.completed {}

/-- Oracle: every driver call completes and reports connected (`b1 = true`). -/
def drvConnected : ℕ → CallResult := fun _ => CallResult.completed { b1 := true }

/-- Oracle: every driver call completes with return code 32
(`MIRcatSDK_RET_INITIALIZATION_FAILURE`). -/
def drvRet32 : ℕ → CallResult := fun _ => CallResult.completed { ret := 32 }

/-- Oracle: every driver call times out. -/
def drvTimeout : ℕ → CallResult := fun _ => CallResult.timeout

/-- Oracle: not connected, and wavelength reads return -5 in microns units. -/
def drvNegWW : ℕ → CallResult :=
  fun _ => CallResult.completed { q1 := -5, u1 := MIRcatSDK_UNITS_MICRONS }

/-- A freshly constructed MIRcat object (snapshots as `_initialize` leaves
them) attached to the given driver oracle, with a constant wall clock. -/
def mkLaser (d : ℕ → CallResult) : Laser := { drv := d, clock := fun _ => 0 }

/-- A probe that always returns 7 without touching any state. -/
def probe7 : M ℕ := fun s => Res.ok 7 s

/-- A probe that always returns 9 without touching any state. -/
def probe9 : M ℕ := fun s => Res.ok 9 s

/-- An object whose wall clock advances 100 seconds between consecutive
`time.time()` readings. -/
def sJumpClock : Laser := { drv := drvNotConnected, clock := fun t => 100 * t }

/-- An object whose wall clock reads 0 on the first `time.time()` call and 100
on every later one, so any polling loop's first elapsed-time check exceeds the
default 10-second timeout. -/
def sLateClock : Laser :=
  { drv := drvNotConnected, clock := fun t => if t = 0 then 0 else 100 }

/-! ## C1: the requires_connection guard -/

/-- C1: the `requires_connection` decorator tests `if self.is_connected():`
and raises inside that branch, so the guard is inverted.  While the driver
reports Disconnected, `disconnect()` and `stopScan()` run to completion and
issue driver calls (3 resp. 2, counted by `k`) instead of failing with the
connection error; while the driver reports Connected they raise
`MIRcatError("-3", "Operation requires connection to MIRCat laser.")`, and
even that failing invocation has already issued one driver call (the
`is_connected` probe inside the guard), never zero. -/
theorem claimC1_theorem :
    Res.isOk (disconnect 1 (mkLaser drvNotConnected)) = true ∧
    (Res.stateOf (disconnect 1 (mkLaser drvNotConnected))).k = 3 ∧
    Res.isOk (stopScan (mkLaser drvNotConnected)) = true ∧
    (Res.stateOf (stopScan (mkLaser drvNotConnected))).k = 2 ∧
    Res.errorOf (disconnect 1 (mkLaser drvConnected)) =
      some (PyError.mircatError (-3) "Operation requires connection to MIRCat laser.") ∧
    (Res.stateOf (disconnect 1 (mkLaser drvConnected))).k = 1 := by
  exact ⟨rfl, rfl, rfl, rfl, rfl, rfl⟩

/-! ## C3: the connected field of the status snapshot -/

/-- C3: with a driver that initialises and reports connected throughout,
`connect()` succeeds — yet the snapshot's `connected` entry still reads
`False`: the `status` property's connected branch never assigns it (no code
path assigns `True`), and reading `.status` in that situation raises the
inverted-guard `MIRcatError(-3)` from the first getter, again leaving
`connected = False`. -/
theorem claimC3_theorem :
    Res.isOk (connect 1 (mkLaser drvConnected)) = true ∧
    (Res.stateOf (connect 1 (mkLaser drvConnected))).st.connected = false ∧
    Res.errorOf (status (Res.stateOf (connect 1 (mkLaser drvConnected)))) =
      some (PyError.mircatError (-3) "Operation requires connection to MIRCat laser.") ∧
    (Res.stateOf (status (Res.stateOf (connect 1 (mkLaser drvConnected))))).st.connected
      = false := by
  exact ⟨rfl, rfl, rfl, rfl⟩

/-! ## C9: teardown suppresses failures -/

/-- C9: `__del__` attempts `self.disconnect()`; it never returns an exception
to the destruction trigger (CPython reports exceptions escaping `__del__` via
sys.unraisablehook and discards them), its final object state is exactly the
state `disconnect` left behind (so the disconnect really was attempted), and
whenever `disconnect` raises, teardown still completes normally with that
state. -/
theorem claimC9_theorem (fuel : ℕ) (s : Laser) :
    Res.isOk (del_teardown fuel s) = true ∧
    Res.stateOf (del_teardown fuel s) = Res.stateOf (disconnect fuel s) ∧
    ∀ e s', disconnect fuel s = Res.err e s' → del_teardown fuel s = Res.ok () s' := by
  cases h : disconnect fuel s with
  | ok a s1 =>
    refine ⟨by simp [del_teardown, h, Res.isOk], by simp [del_teardown, h, Res.stateOf], ?_⟩
    intro e s' he
    exact Res.noConfusion he
  | err e1 s1 =>
    refine ⟨by simp [del_teardown, h, Res.isOk], by simp [del_teardown, h, Res.stateOf], ?_⟩
    intro e s' he
    cases he
    simp [del_teardown, h]

/-- C9 instantiated: on an object whose driver reports connected, `disconnect`
raises the (inverted) guard error, and `__del__` still finishes normally in
the state that failing disconnect left (one driver call issued). -/
theorem claimC9_witness :
    del_teardown 1 (mkLaser drvConnected) = Res.ok () { mkLaser drvConnected with k := 1 } :=
  (claimC9_theorem 1 (mkLaser drvConnected)).2.2
    (PyError.mircatError (-3) "Operation requires connection to MIRCat laser.")
    { mkLaser drvConnected with k := 1 } rfl

/-! ## C8: the condition waiter -/

/-- If the first probe of a `wait_till` run returns a non-target value and the
clock has already advanced past the timeout, the run raises `TimeoutError`
whose payload is the timeout and the target. -/
lemma wait_till_first_timeout {V : Type} [DecidableEq V] [ToString V]
    (function : M V) (target : V) (delay timeout : ℚ) (fuel : ℕ) (s : Laser)
    (v : V) (s1 : Laser)
    (hp : function { s with tk := s.tk + 1 } = Res.ok v s1)
    (hv : ¬ (v = target))
    (ht : s1.clock s1.tk - s.clock s.tk > timeout) :
    wait_till function target delay timeout (fuel + 1) s =
      Res.err (PyError.timeoutError timeout (toString target)) { s1 with tk := s1.tk + 1 } := by
  simp [wait_till, wait_till_loop, time_time, time_sleep, bind_apply, hp, hv, ht]

/-- Any exception raised by a `wait_till_loop` run whose probe itself never
raises is the `TimeoutError` carrying the timeout and the target. -/
lemma wait_till_loop_err {V : Type} [DecidableEq V] [ToString V]
    (function : M V) (target : V) (delay timeout start_time : ℚ)
    (hok : ∀ t, Res.isOk (function t) = true) :
    ∀ fuel s e s',
      wait_till_loop function target delay timeout start_time fuel s = Res.err e s' →
      e = PyError.timeoutError timeout (toString target) := by
  intro fuel
  induction fuel with
  | zero =>
    intro s e s' h
    simp [wait_till_loop] at h
  | succ n ih =>
    intro s e s' h
    rw [wait_till_loop] at h
    cases hf : function s with
    | err e1 s1 =>
      have hk := hok s
      rw [hf] at hk
      simp [Res.isOk] at hk
    | ok v s1 =>
      simp only [bind_apply, hf] at h
      by_cases hv : v = target
      · rw [if_pos hv, pure_apply] at h
        exact Res.noConfusion h
      · rw [if_neg hv] at h
        simp only [bind_apply, time_time] at h
        by_cases ht : s1.clock s1.tk - start_time > timeout
        · rw [if_pos ht, throwE_apply] at h
          cases h
          rfl
        · rw [if_neg ht] at h
          simp only [bind_apply, time_sleep, pure_apply] at h
          exact ih _ e s' h

/-- C8 amended: `wait_till` repeatedly invokes the probe; when the first probe
already returns the target it succeeds with exactly that one probe invocation
(the result state is the state that single probe left); and whenever a run
with a never-raising probe raises, the exception is the `TimeoutError` whose
payload is the timeout and the target — the last observed probe value is not
part of the payload. -/
theorem claimC8_amended {V : Type} [DecidableEq V] [ToString V]
    (function : M V) (target : V) (delay timeout : ℚ) (fuel : ℕ) (s : Laser) :
    (∀ v s1, function { s with tk := s.tk + 1 } = Res.ok v s1 → v = target →
      wait_till function target delay timeout (fuel + 1) s = Res.ok (some true) s1) ∧
    ((∀ t, Res.isOk (function t) = true) →
      ∀ e s', wait_till function target delay timeout fuel s = Res.err e s' →
        e = PyError.timeoutError timeout (toString target)) := by
  constructor
  · intro v s1 hp hv
    subst hv
    simp [wait_till, wait_till_loop, time_time, bind_apply, hp]
  · intro hok e s' h
    simp only [wait_till, bind_apply, time_time] at h
    exact wait_till_loop_err function target delay timeout (s.clock s.tk) hok fuel _ e s' h

/-- C8 amended instantiated: a probe returning the target (7) on the first
call makes `wait_till` succeed with exactly one probe invocation. -/
theorem claimC8_witness :
    wait_till probe7 7 0.5 10 1 (mkLaser drvNotConnected) =
      Res.ok (some true) { mkLaser drvNotConnected with tk := 1 } :=
  (claimC8_amended probe7 7 0.5 10 0 (mkLaser drvNotConnected)).1 7
    { mkLaser drvNotConnected with tk := 1 } rfl rfl

/-- C8 counterexample: two timed-out waits whose probes observed different
last values (7 and 9) raise the *identical* exception — the `TimeoutError`
raised by `wait_till` interpolates only the timeout and the target into its
message, so it cannot carry the last observed probe value as the claim
states. -/
theorem claimC8_counterexample :
    wait_till probe7 0 0.5 10 2 sLateClock =
      Res.err (PyError.timeoutError 10 (toString (0 : ℕ))) { sLateClock with tk := 2 } ∧
    wait_till probe9 0 0.5 10 2 sLateClock =
      Res.err (PyError.timeoutError 10 (toString (0 : ℕ))) { sLateClock with tk := 2 } := by
  constructor
  · exact wait_till_first_timeout probe7 0 0.5 10 1 sLateClock 7 _ rfl (by decide)
      (by norm_num [sLateClock])
  · exact wait_till_first_timeout probe9 0 0.5 10 1 sLateClock 9 _ rfl (by decide)
      (by norm_num [sLateClock])

/-! ## C2: guarded-call error surfacing -/

/-- C2: the code-to-message mapping of `check_return_value` is as specified
(0 succeeds, 32 maps to "Initialization failure.", unknown codes to the
generic message) — but `call_with_timeout` runs that check on a worker thread,
so for a call that completes with the nonzero code 32 the `MIRcatError` dies
inside the thread and the caller of the guarded call observes a normal (ok)
return: the error is swallowed, not surfaced, contradicting the claim (and the
function's own docstring). -/
theorem claimC2_theorem :
    check_return_value 0 MIRcatSDK_RET_SUCCESS = Except.ok true ∧
    call_sdk 32 = Except.error (PyError.mircatError 32 "Initialization failure.") ∧
    call_sdk 999 = Except.error (PyError.mircatError 999 "Unknown error occurred") ∧
    Res.errorOf (call_with_timeout (mkLaser drvRet32)) = none ∧
    Res.isOk (call_with_timeout (mkLaser drvRet32)) = true := by
  refine ⟨by decide, by decide, by decide, rfl, rfl⟩


/-! ## C4: per-channel current-limit lookup -/

/-- C4: for channel 4 with all earlier checks passing, the current-bound check
faults with `IndexError` (`cur_limits` has positions 0–3 and is subscripted
with the channel number itself), instead of completing with success or a typed
current-out-of-range failure; the fault escapes `set_QCL_params`.  Channel 3
with the same electrical values passes. -/
theorem claimC4_theorem :
    validate_QCL_params 4 100 1 0 = Except.error PyError.indexError ∧
    Res.errorOf (set_QCL_params 4 100 1 0 (mkLaser drvNotConnected)) =
      some PyError.indexError ∧
    validate_QCL_params 3 100 1 0 = Except.ok () := by
  refine ⟨?_, ?_, ?_⟩
  · norm_num [validate_QCL_params, cur_limits]
  · simp only [set_QCL_params, requires_connection, is_connected, call_with_timeout,
      bind_apply, pure_apply, throwE_apply, mkLaser, drvNotConnected]
    norm_num [validate_QCL_params, cur_limits, Res.errorOf]
  · norm_num [validate_QCL_params, cur_limits]

/-! ## C5: the unit converter -/

/-- C5 counterexample: the claim says zero or negative input maps the derived
quantity to 0, but `_ww_interpreter(-5, microns)` computes the wavenumber
`1e4 / -5 = -2000 ≠ 0` (Python's `wl and 1e4 / wl or 0` only sends the falsy
input 0 to 0; a negative float is truthy). -/
theorem claimC5_counterexample :
    ww_interpreter (-5) MIRcatSDK_UNITS_MICRONS = (-5, -2000) ∧
    ((-2000 : ℚ) ≠ 0) := by
  refine ⟨by norm_num [ww_interpreter, MIRcatSDK_UNITS_MICRONS], by norm_num⟩

/-- C5 amended: the converter maps zero input to a derived quantity of 0
(returning (0, 0) for input 0) and never divides by zero; for any nonzero
wavelength input — positive or negative — the wavenumber is 10000 divided by
the wavelength, and symmetrically for wavenumber input. -/
theorem claimC5_amended (v : ℚ) (u : ℕ) :
    (v = 0 → ww_interpreter v u = (0, 0)) ∧
    (v ≠ 0 → u = MIRcatSDK_UNITS_MICRONS → ww_interpreter v u = (v, 10000 / v)) ∧
    (v ≠ 0 → u ≠ MIRcatSDK_UNITS_MICRONS → ww_interpreter v u = (10000 / v, v)) := by
  refine ⟨?_, ?_, ?_⟩
  · rintro rfl
    by_cases hu : u = MIRcatSDK_UNITS_MICRONS <;> simp [ww_interpreter, hu]
  · intro hv hu
    simp only [ww_interpreter, if_pos hu, if_neg hv]
    norm_num
  · intro hv hu
    simp only [ww_interpreter, if_neg hu, if_neg hv]
    norm_num

/-- C5 amended, instantiated: a 2-micron wavelength converts to the pair
(2, 10000 / 2). -/
theorem claimC5_witness : ww_interpreter 2 MIRcatSDK_UNITS_MICRONS = (2, 10000 / 2) :=
  (claimC5_amended 2 MIRcatSDK_UNITS_MICRONS).2.1 (by norm_num) rfl

/-! ## C7: order of the validation checks -/

/-- C7 counterexample: at channel 1, rate 100000, width 200, current 0 both
the width check (200 outside [0, 100]) and the duty-cycle check (20 outside
[0, 5] percent) are violated.  The claim's order (width before duty cycle)
predicts the width-check failure, but the code raises the duty-cycle failure —
the source checks duty cycle before width. -/
theorem claimC7_counterexample :
    validate_QCL_params 1 100000 200 0 =
      Except.error (PyError.mircatError (-1) "Duty cycle limit: 0% <= duty cycle <= 5%") ∧
    PyError.mircatError (-1) "Duty cycle limit: 0% <= duty cycle <= 5%" ≠
      PyError.mircatError (-1) "Duty cycle limit: 0 <= puls width <= 100" := by
  refine ⟨by norm_num [validate_QCL_params, cur_limits], by decide⟩

/-! ## C7: order of the validation checks (amended form) -/

/-- Evaluates an ordered list of (violated?, error) checks, reporting the
first violation and succeeding when none fires. -/
def firstViolation : List (Bool × PyError) → Except PyError Unit
  | [] => Except.ok ()
  | (b, e) :: rest => if b then Except.error e else firstViolation rest

/-- The per-channel current maximum the code's current-bound check actually
applies for the channels whose lookup does not fault: the entries of
`cur_limits` at positions 1–3, i.e. channel 1 → 820, channel 2 → 630,
channel 3 → 950. -/
def appliedCurrentLimit : ℕ → ℚ
  | 1 => 820
  | 2 => 630
  | 3 => 950
  | _ => 0

/-- Spec-side rendering of the amended C7: the checks run in the order
channel, rate, duty cycle, width, current; the current bound for channels 1–3
is `appliedCurrentLimit`, and for channel 4 the current check faults with
`IndexError` before any current comparison. -/
def validate_spec_C7 (QCLnum : ℕ) (puls_rate puls_width current : ℚ) :
    Except PyError Unit :=
  firstViolation
    [ (decide (QCLnum ∉ ([1, 2, 3, 4] : List ℕ)),
        PyError.mircatError (-1) "Wrong QCLnum: must be one of 1,2,3,4"),
      (decide (puls_rate < 10 ∨ puls_rate > 100000),
        PyError.mircatError (-1) "Puls rate limit: 10 <= puls rate <= 100000"),
      (decide (1e-6 * puls_rate * puls_width < 0 ∨ 1e-6 * puls_rate * puls_width > 5),
        PyError.mircatError (-1) "Duty cycle limit: 0% <= duty cycle <= 5%"),
      (decide (puls_width < 0 ∨ puls_width > 100),
        PyError.mircatError (-1) "Duty cycle limit: 0 <= puls width <= 100"),
      (decide (QCLnum = 4), PyError.indexError),
      (decide (current < 0 ∨ current > appliedCurrentLimit QCLnum),
        PyError.mircatError (-1)
          ("Current limit: 0 <= current <= " ++ toString (appliedCurrentLimit QCLnum))) ]

/-- C7 amended: the validator reports exactly the first violation in the
order channel ∈ {1,2,3,4}, rate ∈ [10,100000], duty cycle ∈ [0,5], width
∈ [0,100], current — duty cycle before width (not after, as claimed), with
per-channel current bounds 820/630/950 for channels 1/2/3 and an IndexError
fault in place of the channel-4 current check. -/
theorem claimC7_amended (QCLnum : ℕ) (puls_rate puls_width current : ℚ) :
    validate_QCL_params QCLnum puls_rate puls_width current =
      validate_spec_C7 QCLnum puls_rate puls_width current := by
  by_cases h1 : QCLnum ∈ ([1, 2, 3, 4] : List ℕ)
  · have h4 : QCLnum = 1 ∨ QCLnum = 2 ∨ QCLnum = 3 ∨ QCLnum = 4 := by
      simpa using h1
    rcases h4 with rfl | rfl | rfl | rfl <;>
      simp [validate_QCL_params, validate_spec_C7, firstViolation, cur_limits,
        appliedCurrentLimit]
  · simp [validate_QCL_params, validate_spec_C7, firstViolation, h1]

/-! ## C6: the wavelength/wavenumber consistency invariant -/

/-- Consistency of one wavelength/wavenumber pair as the code computes them:
zero wavelength comes with zero wavenumber, and a nonzero wavelength `wl`
comes with wavenumber `10000 / wl`. -/
def wwPairConsistent (p : ℚ × ℚ) : Bool :=
  if p.1 = 0 then decide (p.2 = 0) else decide (p.2 = 10000 / p.1)

/-- C6's invariant exactly as claimed: `wavenumber = 10000 / wavelength`
whenever the stored wavelength is positive, and otherwise both fields hold the
unknown ("?" = `none`) or zero sentinel. -/
def wwConsistentClaim (st : StatusSnap) : Bool :=
  match st.wl, st.wn with
  | some wl, some wn =>
      if wl > 0 then decide (wn = 10000 / wl) else decide (wl = 0) && decide (wn = 0)
  | none, none => true
  | _, _ => false

/-- C6's invariant in its amended form: both fields unknown, or a stored pair
that is consistent in the sense of `wwPairConsistent` (covering negative
driver readings, which the converter propagates consistently). -/
def wwConsistent (st : StatusSnap) : Bool :=
  match st.wl, st.wn with
  | some wl, some wn => wwPairConsistent (wl, wn)
  | none, none => true
  | _, _ => false

/-- Every pair produced by `_ww_interpreter` is consistent. -/
lemma interp_consistent (v : ℚ) (u : ℕ) : wwPairConsistent (ww_interpreter v u) = true := by
  unfold wwPairConsistent ww_interpreter
  by_cases hu : u = MIRcatSDK_UNITS_MICRONS
  · by_cases hv : v = 0
    · simp [hu, hv]
    · simp [hu, hv]
      norm_num
  · by_cases hv : v = 0 <;> simp [hu, hv]
    have h4 : (1e4 : ℚ) = 10000 := by norm_num
    rw [h4]
    refine ⟨by norm_num, ?_⟩
    rw [div_div_eq_mul_div, mul_comm, mul_div_assoc,
      div_self (by norm_num : (10000 : ℚ) ≠ 0), mul_one]

/-- Statement that `m` preserves the (amended) wavelength/wavenumber consistency invariant of
the status snapshot, whether it returns or raises. -/
def preservesWwInv {α : Type} (m : M α) : Prop :=
  ∀ s : Laser, wwConsistent s.st = true → wwConsistent (Res.stateOf (m s)).st = true

lemma wwConsistent_congr {st st' : StatusSnap} (h1 : st'.wl = st.wl) (h2 : st'.wn = st.wn) :
    wwConsistent st' = wwConsistent st := by
  unfold wwConsistent
  rw [h1, h2]

lemma presPure {α : Type} (a : α) : preservesWwInv (pure a : M α) := fun _ hs => hs

lemma presThrow {α : Type} (e : PyError) : preservesWwInv (throwE e : M α) := fun _ hs => hs

lemma presGetS : preservesWwInv getS := fun _ hs => hs

lemma presCall : preservesWwInv call_with_timeout := by
  intro s hs
  unfold call_with_timeout
  cases h : s.drv s.k <;> exact hs

lemma presTime : preservesWwInv time_time := fun _ hs => hs

lemma presSleep (d : ℚ) : preservesWwInv (time_sleep d) := fun _ hs => hs

lemma presBind {α β : Type} {x : M α} {f : α → M β}
    (hx : preservesWwInv x) (hf : ∀ a, preservesWwInv (f a)) :
    preservesWwInv (x >>= f) := by
  intro s hs
  have h1 := hx s hs
  cases hres : x s with
  | ok a s1 =>
    rw [hres] at h1
    simpa [bind_apply, hres] using hf a s1 h1
  | err e s1 =>
    rw [hres] at h1
    simpa [bind_apply, hres] using h1

lemma presIte {α : Type} {c : Prop} [Decidable c] {x y : M α}
    (hx : preservesWwInv x) (hy : preservesWwInv y) :
    preservesWwInv (if c then x else y) := by
  by_cases h : c
  · rw [if_pos h]; exact hx
  · rw [if_neg h]; exact hy

/-- A `modifyS` whose update leaves the stored wavelength and wavenumber
untouched preserves the invariant. -/
lemma presModifyFrame {f : Laser → Laser}
    (h : ∀ s, (f s).st.wl = s.st.wl ∧ (f s).st.wn = s.st.wn) :
    preservesWwInv (modifyS f) := by
  intro s hs
  have hc := wwConsistent_congr (h s).1 (h s).2
  simpa [modifyS, Res.stateOf, hc] using hs

lemma presIsConnected : preservesWwInv is_connected := by
  simp only [is_connected]
  exact presBind presCall fun r => presPure r.b1

lemma presRequires {α : Type} {func : M α} (hf : preservesWwInv func) :
    preservesWwInv (requires_connection func) := by
  simp only [requires_connection]
  exact presBind presIsConnected fun c => presIte (presThrow _) hf

lemma presWaitLoop {V : Type} [DecidableEq V] [ToString V]
    {function : M V} (hfn : preservesWwInv function)
    (target : V) (delay timeout start_time : ℚ) :
    ∀ fuel, preservesWwInv (wait_till_loop function target delay timeout start_time fuel) := by
  intro fuel
  induction fuel with
  | zero =>
    intro s hs
    simpa [wait_till_loop] using hs
  | succ n ih =>
    simp only [wait_till_loop]
    refine presBind hfn fun v => presIte (presPure _) ?_
    refine presBind presTime fun now => presIte (presThrow _) ?_
    exact presBind (presSleep _) fun _ => ih

lemma presWait {V : Type} [DecidableEq V] [ToString V]
    {function : M V} (hfn : preservesWwInv function)
    (target : V) (delay timeout : ℚ) (fuel : ℕ) :
    preservesWwInv (wait_till function target delay timeout fuel) := by
  simp only [wait_till]
  exact presBind presTime fun start => presWaitLoop hfn target delay timeout start fuel

lemma presArmedStatus : preservesWwInv get_laser_armed_status := by
  simp only [get_laser_armed_status]
  exact presRequires (presBind presCall fun r =>
    presBind (presModifyFrame fun s => ⟨rfl, rfl⟩) fun _ => presPure _)

lemma presEmission : preservesWwInv check_laser_emission := by
  simp only [check_laser_emission]
  exact presRequires (presBind presCall fun r =>
    presBind (presModifyFrame fun s => ⟨rfl, rfl⟩) fun _ => presPure _)

lemma presIsTuned : preservesWwInv is_tuned := by
  simp only [is_tuned]
  exact presRequires (presBind presCall fun r =>
    presBind (presModifyFrame fun s => ⟨rfl, rfl⟩) fun _ => presPure _)

/-- Full outcome analysis of `get_ww`: it either raises leaving the status
snapshot untouched, or returns an interpreter pair after writing exactly that
pair into the snapshot. -/
lemma get_ww_spec (s : Laser) :
    (∃ e s1, get_ww s = Res.err e s1 ∧ s1.st = s.st) ∨
    (∃ p s1, get_ww s = Res.ok p s1 ∧
      s1.st = { s.st with wl := some p.1, wn := some p.2 } ∧
      wwPairConsistent p = true) := by
  cases h0 : s.drv s.k with
  | timeout =>
    refine Or.inl ⟨PyError.mircatError (-2) "SDK call timed out.",
      { s with k := s.k + 1 }, ?_, rfl⟩
    simp [get_ww, requires_connection, is_connected, call_with_timeout, h0]
  | completed g =>
    cases hb : g.b1 with
    | true =>
      refine Or.inl ⟨PyError.mircatError (-3) "Operation requires connection to MIRCat laser.",
        { s with k := s.k + 1 }, ?_, rfl⟩
      simp [get_ww, requires_connection, is_connected, call_with_timeout, h0, hb]
    | false =>
      cases h1 : s.drv (s.k + 1) with
      | timeout =>
        refine Or.inl ⟨PyError.mircatError (-2) "SDK call timed out.",
          { s with k := s.k + 1 + 1 }, ?_, rfl⟩
        simp [get_ww, requires_connection, is_connected, call_with_timeout, h0, hb, h1]
      | completed r =>
        have hrun : get_ww s = Res.ok (ww_interpreter r.q1 r.u1)
            { s with
              k := s.k + 1 + 1
              st := { s.st with
                      wl := some (ww_interpreter r.q1 r.u1).1
                      wn := some (ww_interpreter r.q1 r.u1).2 } } := by
          simp [get_ww, requires_connection, is_connected, call_with_timeout, modifyS,
            h0, hb, h1]
        exact Or.inr ⟨_, _, hrun, rfl, interp_consistent r.q1 r.u1⟩

lemma presGetWw : preservesWwInv get_ww := by
  intro s hs
  rcases get_ww_spec s with ⟨e, s1, hrun, hst⟩ | ⟨p, s1, hrun, hst, hcons⟩
  · rw [hrun]
    simpa [Res.stateOf, wwConsistent_congr (congrArg StatusSnap.wl hst)
      (congrArg StatusSnap.wn hst)] using hs
  · rw [hrun]
    simp only [Res.stateOf, hst]
    simpa [wwConsistent] using hcons

/-- The final step of the `status` property — read the wavelength pair, write
it back into the snapshot, and continue with any invariant-preserving
continuation — preserves the invariant, because the pair written is an
interpreter pair. -/
lemma presGetWwWriteCont {β : Type} {cont : Unit → M β}
    (hk : ∀ y, preservesWwInv (cont y)) :
    preservesWwInv (get_ww >>= fun p =>
      (modifyS fun s => { s with st := { s.st with wl := some p.1, wn := some p.2 } })
        >>= cont) := by
  intro s hs
  rcases get_ww_spec s with ⟨e, s1, hrun, hst⟩ | ⟨p, s1, hrun, hst, hcons⟩
  · simp only [bind_apply, hrun, Res.stateOf]
    simpa [wwConsistent_congr (congrArg StatusSnap.wl hst)
      (congrArg StatusSnap.wn hst)] using hs
  · simp only [bind_apply, hrun, modifyS_apply]
    apply hk
    simpa [wwConsistent] using hcons

lemma presGuardedRead {α : Type} (ext : DriverReply → α) :
    preservesWwInv (requires_connection (call_with_timeout >>= fun r => pure (ext r))) :=
  presRequires (presBind presCall fun r => presPure (ext r))

lemma presGetNumQcls : preservesWwInv get_num_qcls :=
  presGuardedRead fun r => r.n1

lemma presInterlock : preservesWwInv get_interlock_status :=
  presGuardedRead fun r => r.b1

lemma presKeySwitch : preservesWwInv get_key_switch_status :=
  presGuardedRead fun r => r.b1

lemma presPulseRate (n : ℕ) : preservesWwInv (get_QCL_PulseRate n) :=
  presGuardedRead fun r => r.q1

lemma presPulseWidth (n : ℕ) : preservesWwInv (get_QCL_PulseWidth n) :=
  presGuardedRead fun r => r.q1

lemma presCurrent (n : ℕ) : preservesWwInv (get_QCL_Current n) :=
  presGuardedRead fun r => r.q1

lemma presConnect (fuel : ℕ) : preservesWwInv (connect fuel) := by
  simp only [connect]
  exact presBind presCall fun _ => presWait presIsConnected true 0.5 10 fuel

lemma presDisconnect (fuel : ℕ) : preservesWwInv (disconnect fuel) := by
  simp only [disconnect]
  exact presRequires (presBind presCall fun _ => presWait presIsConnected false 0.5 10 fuel)

lemma presArm (fuel : ℕ) : preservesWwInv (arm_laser fuel) := by
  simp only [arm_laser]
  exact presRequires (presBind presCall fun _ => presWait presArmedStatus true 0.5 10 fuel)

lemma presDisarm (fuel : ℕ) : preservesWwInv (disarm_laser fuel) := by
  simp only [disarm_laser]
  exact presRequires (presBind presCall fun _ => presWait presArmedStatus false 0.5 10 fuel)

lemma presTune (mode : WWMode) (target : ℚ) (fuel : ℕ) :
    preservesWwInv (tune mode target fuel) := by
  simp only [tune]
  exact presRequires (presBind presCall fun _ =>
    presBind (presWait presIsTuned true 0.5 30 fuel) fun _ => presPure _)

lemma presEnable (fuel : ℕ) : preservesWwInv (enable_emission fuel) := by
  simp only [enable_emission]
  exact presRequires (presBind presCall fun _ => presWait presEmission true 0.5 10 fuel)

lemma presDisable (fuel : ℕ) : preservesWwInv (disable_emission fuel) := by
  simp only [disable_emission]
  exact presRequires (presBind presCall fun _ => presWait presEmission false 0.5 10 fuel)

lemma presQclParams (n : ℕ) : preservesWwInv (get_QCL_params n) := by
  simp only [get_QCL_params]
  exact presRequires (presBind (presPulseRate n) fun r =>
    presBind (presPulseWidth n) fun w =>
    presBind (presCurrent n) fun c => presPure _)

lemma presQclParamsAll : preservesWwInv get_QCL_params_all := by
  simp only [get_QCL_params_all]
  exact presRequires (presBind (presQclParams 1) fun a =>
    presBind (presQclParams 2) fun b =>
    presBind (presQclParams 3) fun c =>
    presBind (presQclParams 4) fun d => presPure _)

lemma presSetQcl (ch : ℕ) (r w c : ℚ) : preservesWwInv (set_QCL_params ch r w c) := by
  simp only [set_QCL_params]
  refine presRequires ?_
  cases hval : validate_QCL_params ch r w c with
  | error e => exact presThrow e
  | ok u =>
    cases u
    exact presBind presCall fun _ => presPure _

lemma presSweep (m : WWMode) (a b c : ℚ) (rep : ℕ) (bi : Bool) :
    preservesWwInv (startSweepScan m a b c rep bi) := by
  simp only [startSweepScan]
  exact presRequires (presBind presCall fun _ => presPure _)

lemma presStop : preservesWwInv stopScan := by
  simp only [stopScan]
  exact presRequires (presBind presCall fun _ => presPure _)

lemma presPause : preservesWwInv pauseScan := by
  simp only [pauseScan]
  exact presRequires (presBind presCall fun _ => presPure _)

lemma presResume : preservesWwInv resumeScan := by
  simp only [resumeScan]
  exact presRequires (presBind presCall fun _ => presPure _)

lemma presScanStatus : preservesWwInv scanStatus := by
  simp only [scanStatus]
  exact presRequires (presBind presCall fun r =>
    presBind (presModifyFrame fun s => ⟨rfl, rfl⟩) fun _ => presPure _)

lemma presApiVersion : preservesWwInv get_api_version := by
  simp only [get_api_version]
  exact presBind presCall fun _ => presPure _

lemma presInitializeFields : preservesWwInv initializeFields := by
  intro s hs
  simp only [initializeFields, get_api_version, bind_apply]
  cases h : call_with_timeout s with
  | ok r s1 => simp [modifyS, Res.stateOf, wwConsistent]
  | err e s1 =>
    have hp := presCall s hs
    rw [h] at hp
    simpa [Res.stateOf] using hp

lemma presStatus : preservesWwInv status := by
  simp only [status]
  refine presBind presIsConnected fun c => ?_
  refine presIte ?thenB ?elseB
  case elseB =>
    exact presBind (presModifyFrame fun s => ⟨rfl, rfl⟩) fun _ =>
      presBind presGetS fun t => presPure _
  case thenB =>
    refine presBind presGetNumQcls fun n => ?_
    refine presBind (presModifyFrame fun s => ⟨rfl, rfl⟩) fun _ => ?_
    refine presBind presInterlock fun il => ?_
    refine presBind (presModifyFrame fun s => ⟨rfl, rfl⟩) fun _ => ?_
    refine presBind presKeySwitch fun ks => ?_
    refine presBind (presModifyFrame fun s => ⟨rfl, rfl⟩) fun _ => ?_
    refine presBind presArmedStatus fun ar => ?_
    refine presBind (presModifyFrame fun s => ⟨rfl, rfl⟩) fun _ => ?_
    refine presBind presEmission fun em => ?_
    refine presBind (presModifyFrame fun s => ⟨rfl, rfl⟩) fun _ => ?_
    refine presBind presIsTuned fun tu => ?_
    refine presBind (presModifyFrame fun s => ⟨rfl, rfl⟩) fun _ => ?_
    exact presGetWwWriteCont fun y => presBind presGetS fun t => presPure _

lemma presDel (fuel : ℕ) : preservesWwInv (del_teardown fuel) := by
  intro s hs
  have h := presDisconnect fuel s hs
  unfold del_teardown
  cases hd : disconnect fuel s with
  | ok a s1 => rw [hd] at h; exact h
  | err e s1 => rw [hd] at h; exact h

/-- C6 counterexample: starting from the freshly initialised snapshot (which
satisfies the claimed invariant), a successful `get_ww` whose driver reports
-5 microns leaves the snapshot with wavelength -5 and wavenumber -2000 —
the wavelength is not positive, yet the fields are not the unknown/zero
sentinel, so the invariant exactly as claimed is violated. -/
theorem claimC6_counterexample :
    wwConsistentClaim (mkLaser drvNegWW).st = true ∧
    Res.isOk (get_ww (mkLaser drvNegWW)) = true ∧
    wwConsistentClaim (Res.stateOf (get_ww (mkLaser drvNegWW))).st = false := by
  refine ⟨rfl, rfl, ?_⟩
  norm_num [get_ww, requires_connection, is_connected, call_with_timeout, modifyS,
    mkLaser, drvNegWW, Res.stateOf, bind_apply, pure_apply, throwE_apply,
    wwConsistentClaim, ww_interpreter, MIRcatSDK_UNITS_MICRONS]

/-- C6 amended: every modelled operation of the state machine preserves the
snapshot invariant in its amended form — the stored wavenumber equals
10000 / wavelength whenever the stored wavelength is nonzero (negative driver
readings propagate to a consistent negative pair), a zero wavelength comes
with a zero wavenumber, and otherwise both fields hold the unknown
sentinel. -/
theorem claimC6_amended :
    (∀ fuel, preservesWwInv (connect fuel)) ∧
    (∀ fuel, preservesWwInv (disconnect fuel)) ∧
    preservesWwInv is_connected ∧
    preservesWwInv status ∧
    preservesWwInv get_num_qcls ∧
    preservesWwInv get_interlock_status ∧
    preservesWwInv get_key_switch_status ∧
    (∀ fuel, preservesWwInv (arm_laser fuel)) ∧
    (∀ fuel, preservesWwInv (disarm_laser fuel)) ∧
    (∀ mode target fuel, preservesWwInv (tune mode target fuel)) ∧
    preservesWwInv is_tuned ∧
    preservesWwInv get_ww ∧
    (∀ fuel, preservesWwInv (enable_emission fuel)) ∧
    (∀ fuel, preservesWwInv (disable_emission fuel)) ∧
    preservesWwInv check_laser_emission ∧
    preservesWwInv get_laser_armed_status ∧
    (∀ n, preservesWwInv (get_QCL_PulseRate n)) ∧
    (∀ n, preservesWwInv (get_QCL_PulseWidth n)) ∧
    (∀ n, preservesWwInv (get_QCL_Current n)) ∧
    (∀ n, preservesWwInv (get_QCL_params n)) ∧
    preservesWwInv get_QCL_params_all ∧
    (∀ ch r w c, preservesWwInv (set_QCL_params ch r w c)) ∧
    (∀ m a b c rep bi, preservesWwInv (startSweepScan m a b c rep bi)) ∧
    preservesWwInv stopScan ∧
    preservesWwInv pauseScan ∧
    preservesWwInv resumeScan ∧
    preservesWwInv scanStatus ∧
    preservesWwInv get_api_version ∧
    preservesWwInv initializeFields ∧
    (∀ fuel, preservesWwInv (del_teardown fuel)) :=
  ⟨presConnect, presDisconnect, presIsConnected, presStatus, presGetNumQcls,
    presInterlock, presKeySwitch, presArm, presDisarm, presTune, presIsTuned,
    presGetWw, presEnable, presDisable, presEmission, presArmedStatus,
    presPulseRate, presPulseWidth, presCurrent, presQclParams, presQclParamsAll,
    presSetQcl, presSweep, presStop, presPause, presResume, presScanStatus,
    presApiVersion, presInitializeFields, presDel⟩

/-- C6 amended instantiated: running `connect` on a fresh object (whose
snapshot, with both fields unknown, satisfies the invariant) yields a state
that still satisfies it. -/
theorem claimC6_witness :
    wwConsistent (Res.stateOf (connect 1 (mkLaser drvConnected))).st = true :=
  claimC6_amended.1 1 (mkLaser drvConnected) rfl

/-! ## C10: failed status reads do not partially corrupt the snapshot -/

set_option linter.unreachableTactic false in
set_option linter.unusedTactic false in
/-- C10: when a `status` read pass raises, every snapshot field whose
update step had not yet completed retains its prior value, and the
`connected` entry is never touched by a failing pass.  Progress is
measured by the number of driver calls the pass consumed: the pass reads
the connection probe first, then each of the seven fields costs a guard
probe plus one read, so field number j is only ever written after more
than 2j+1 calls have been consumed; a pass that raised having consumed at
most 2j+1 calls left field j (and every later field) untouched. -/
theorem claimC10_theorem (s : Laser) (e : PyError) (s' : Laser)
    (h : status s = Res.err e s') :
    s'.st.connected = s.st.connected ∧
    (s'.k ≤ s.k + 3 → s'.st.numQCLs = s.st.numQCLs) ∧
    (s'.k ≤ s.k + 5 → s'.st.isInterlockSet = s.st.isInterlockSet) ∧
    (s'.k ≤ s.k + 7 → s'.st.isKeySwitchSet = s.st.isKeySwitchSet) ∧
    (s'.k ≤ s.k + 9 → s'.st.isArmed = s.st.isArmed) ∧
    (s'.k ≤ s.k + 11 → s'.st.isEmitting = s.st.isEmitting) ∧
    (s'.k ≤ s.k + 13 → s'.st.isTuned = s.st.isTuned) ∧
    (s'.k ≤ s.k + 15 → s'.st.wl = s.st.wl ∧ s'.st.wn = s.st.wn) := by
  simp only [status, is_connected, requires_connection, get_num_qcls, get_interlock_status,
      get_key_switch_status, get_laser_armed_status, check_laser_emission, is_tuned, get_ww,
      call_with_timeout, getS, modifyS, bind_apply, pure_apply, throwE_apply, if_true,
      if_false, eq_self_iff_true, Bool.false_eq_true] at h
  cases hd0 : s.drv s.k with
  | timeout =>
    simp only [hd0, status, is_connected, requires_connection, get_num_qcls,
        get_interlock_status, get_key_switch_status, get_laser_armed_status,
        check_laser_emission, is_tuned, get_ww, call_with_timeout, getS, modifyS, bind_apply,
        pure_apply, throwE_apply, if_true, if_false, eq_self_iff_true, Bool.false_eq_true] at h
    rw [Res.err.injEq] at h
    obtain ⟨rfl, rfl⟩ := h
    refine ⟨rfl, ?_, ?_, ?_, ?_, ?_, ?_, ?_⟩ <;> intro hk <;>
      first
      | rfl
      | exact ⟨rfl, rfl⟩
      | (dsimp only at hk; omega)
  | completed g0 =>
    simp only [hd0, status, is_connected, requires_connection, get_num_qcls,
        get_interlock_status, get_key_switch_status, get_laser_armed_status,
        check_laser_emission, is_tuned, get_ww, call_with_timeout, getS, modifyS, bind_apply,
        pure_apply, throwE_apply, if_true, if_false, eq_self_iff_true, Bool.false_eq_true] at h
    cases hb0 : g0.b1 with
    | false =>
      simp only [hb0, status, is_connected, requires_connection, get_num_qcls,
          get_interlock_status, get_key_switch_status, get_laser_armed_status,
          check_laser_emission, is_tuned, get_ww, call_with_timeout, getS, modifyS, bind_apply,
          pure_apply, throwE_apply, if_true, if_false, eq_self_iff_true,
          Bool.false_eq_true] at h
      exact Res.noConfusion h
    | true =>
      simp only [hb0, status, is_connected, requires_connection, get_num_qcls,
          get_interlock_status, get_key_switch_status, get_laser_armed_status,
          check_laser_emission, is_tuned, get_ww, call_with_timeout, getS, modifyS, bind_apply,
          pure_apply, throwE_apply, if_true, if_false, eq_self_iff_true,
          Bool.false_eq_true] at h
      cases hg1 : s.drv (s.k + 1) with
      | timeout =>
        simp only [hg1, status, is_connected, requires_connection, get_num_qcls,
            get_interlock_status, get_key_switch_status, get_laser_armed_status,
            check_laser_emission, is_tuned, get_ww, call_with_timeout, getS, modifyS,
            bind_apply, pure_apply, throwE_apply, if_true, if_false, eq_self_iff_true,
            Bool.false_eq_true] at h
        rw [Res.err.injEq] at h
        obtain ⟨rfl, rfl⟩ := h
        refine ⟨rfl, ?_, ?_, ?_, ?_, ?_, ?_, ?_⟩ <;> intro hk <;>
          first
          | rfl
          | exact ⟨rfl, rfl⟩
          | (dsimp only at hk; omega)
      | completed g1 =>
        simp only [hg1, status, is_connected, requires_connection, get_num_qcls,
            get_interlock_status, get_key_switch_status, get_laser_armed_status,
            check_laser_emission, is_tuned, get_ww, call_with_timeout, getS, modifyS,
            bind_apply, pure_apply, throwE_apply, if_true, if_false, eq_self_iff_true,
            Bool.false_eq_true] at h
        cases hb1 : g1.b1 with
        | true =>
          simp only [hb1, status, is_connected, requires_connection, get_num_qcls,
              get_interlock_status, get_key_switch_status, get_laser_armed_status,
              check_laser_emission, is_tuned, get_ww, call_with_timeout, getS, modifyS,
              bind_apply, pure_apply, throwE_apply, if_true, if_false, eq_self_iff_true,
              Bool.false_eq_true] at h
          rw [Res.err.injEq] at h
          obtain ⟨rfl, rfl⟩ := h
          refine ⟨rfl, ?_, ?_, ?_, ?_, ?_, ?_, ?_⟩ <;> intro hk <;>
            first
            | rfl
            | exact ⟨rfl, rfl⟩
            | (dsimp only at hk; omega)
        | false =>
          simp only [hb1, status, is_connected, requires_connection, get_num_qcls,
              get_interlock_status, get_key_switch_status, get_laser_armed_status,
              check_laser_emission, is_tuned, get_ww, call_with_timeout, getS, modifyS,
              bind_apply, pure_apply, throwE_apply, if_true, if_false, eq_self_iff_true,
              Bool.false_eq_true] at h
          cases hr1 : s.drv (s.k + 1 + 1) with
          | timeout =>
            simp only [hr1, status, is_connected, requires_connection, get_num_qcls,
                get_interlock_status, get_key_switch_status, get_laser_armed_status,
                check_laser_emission, is_tuned, get_ww, call_with_timeout, getS, modifyS,
                bind_apply, pure_apply, throwE_apply, if_true, if_false, eq_self_iff_true,
                Bool.false_eq_true] at h
            rw [Res.err.injEq] at h
            obtain ⟨rfl, rfl⟩ := h
            refine ⟨rfl, ?_, ?_, ?_, ?_, ?_, ?_, ?_⟩ <;> intro hk <;>
              first
              | rfl
              | exact ⟨rfl, rfl⟩
              | (dsimp only at hk; omega)
          | completed r1 =>
            simp only [hr1, status, is_connected, requires_connection, get_num_qcls,
                get_interlock_status, get_key_switch_status, get_laser_armed_status,
                check_laser_emission, is_tuned, get_ww, call_with_timeout, getS, modifyS,
                bind_apply, pure_apply, throwE_apply, if_true, if_false, eq_self_iff_true,
                Bool.false_eq_true] at h
            cases hg2 : s.drv (s.k + 1 + 1 + 1) with
            | timeout =>
              simp only [hg2, status, is_connected, requires_connection, get_num_qcls,
                  get_interlock_status, get_key_switch_status, get_laser_armed_status,
                  check_laser_emission, is_tuned, get_ww, call_with_timeout, getS, modifyS,
                  bind_apply, pure_apply, throwE_apply, if_true, if_false, eq_self_iff_true,
                  Bool.false_eq_true] at h
              rw [Res.err.injEq] at h
              obtain ⟨rfl, rfl⟩ := h
              refine ⟨rfl, ?_, ?_, ?_, ?_, ?_, ?_, ?_⟩ <;> intro hk <;>
                first
                | rfl
                | exact ⟨rfl, rfl⟩
                | (dsimp only at hk; omega)
            | completed g2 =>
              simp only [hg2, status, is_connected, requires_connection, get_num_qcls,
                  get_interlock_status, get_key_switch_status, get_laser_armed_status,
                  check_laser_emission, is_tuned, get_ww, call_with_timeout, getS, modifyS,
                  bind_apply, pure_apply, throwE_apply, if_true, if_false, eq_self_iff_true,
                  Bool.false_eq_true] at h
              cases hb2 : g2.b1 with
              | true =>
                simp only [hb2, status, is_connected, requires_connection, get_num_qcls,
                    get_interlock_status, get_key_switch_status, get_laser_armed_status,
                    check_laser_emission, is_tuned, get_ww, call_with_timeout, getS, modifyS,
                    bind_apply, pure_apply, throwE_apply, if_true, if_false, eq_self_iff_true,
                    Bool.false_eq_true] at h
                rw [Res.err.injEq] at h
                obtain ⟨rfl, rfl⟩ := h
                refine ⟨rfl, ?_, ?_, ?_, ?_, ?_, ?_, ?_⟩ <;> intro hk <;>
                  first
                  | rfl
                  | exact ⟨rfl, rfl⟩
                  | (dsimp only at hk; omega)
              | false =>
                simp only [hb2, status, is_connected, requires_connection, get_num_qcls,
                    get_interlock_status, get_key_switch_status, get_laser_armed_status,
                    check_laser_emission, is_tuned, get_ww, call_with_timeout, getS, modifyS,
                    bind_apply, pure_apply, throwE_apply, if_true, if_false, eq_self_iff_true,
                    Bool.false_eq_true] at h
                cases hr2 : s.drv (s.k + 1 + 1 + 1 + 1) with
                | timeout =>
                  simp only [hr2, status, is_connected, requires_connection, get_num_qcls,
                      get_interlock_status, get_key_switch_status, get_laser_armed_status,
                      check_laser_emission, is_tuned, get_ww, call_with_timeout, getS, modifyS,
                      bind_apply, pure_apply, throwE_apply, if_true, if_false,
                      eq_self_iff_true, Bool.false_eq_true] at h
                  rw [Res.err.injEq] at h
                  obtain ⟨rfl, rfl⟩ := h
                  refine ⟨rfl, ?_, ?_, ?_, ?_, ?_, ?_, ?_⟩ <;> intro hk <;>
                    first
                    | rfl
                    | exact ⟨rfl, rfl⟩
                    | (dsimp only at hk; omega)
                | completed r2 =>
                  simp only [hr2, status, is_connected, requires_connection, get_num_qcls,
                      get_interlock_status, get_key_switch_status, get_laser_armed_status,
                      check_laser_emission, is_tuned, get_ww, call_with_timeout, getS, modifyS,
                      bind_apply, pure_apply, throwE_apply, if_true, if_false,
                      eq_self_iff_true, Bool.false_eq_true] at h
                  cases hg3 : s.drv (s.k + 1 + 1 + 1 + 1 + 1) with
                  | timeout =>
                    simp only [hg3, status, is_connected, requires_connection, get_num_qcls,
                        get_interlock_status, get_key_switch_status, get_laser_armed_status,
                        check_laser_emission, is_tuned, get_ww, call_with_timeout, getS,
                        modifyS, bind_apply, pure_apply, throwE_apply, if_true, if_false,
                        eq_self_iff_true, Bool.false_eq_true] at h
                    rw [Res.err.injEq] at h
                    obtain ⟨rfl, rfl⟩ := h
                    refine ⟨rfl, ?_, ?_, ?_, ?_, ?_, ?_, ?_⟩ <;> intro hk <;>
                      first
                      | rfl
                      | exact ⟨rfl, rfl⟩
                      | (dsimp only at hk; omega)
                  | completed g3 =>
                    simp only [hg3, status, is_connected, requires_connection, get_num_qcls,
                        get_interlock_status, get_key_switch_status, get_laser_armed_status,
                        check_laser_emission, is_tuned, get_ww, call_with_timeout, getS,
                        modifyS, bind_apply, pure_apply, throwE_apply, if_true, if_false,
                        eq_self_iff_true, Bool.false_eq_true] at h
                    cases hb3 : g3.b1 with
                    | true =>
                      simp only [hb3, status, is_connected, requires_connection, get_num_qcls,
                          get_interlock_status, get_key_switch_status, get_laser_armed_status,
                          check_laser_emission, is_tuned, get_ww, call_with_timeout, getS,
                          modifyS, bind_apply, pure_apply, throwE_apply, if_true, if_false,
                          eq_self_iff_true, Bool.false_eq_true] at h
                      rw [Res.err.injEq] at h
                      obtain ⟨rfl, rfl⟩ := h
                      refine ⟨rfl, ?_, ?_, ?_, ?_, ?_, ?_, ?_⟩ <;> intro hk <;>
                        first
                        | rfl
                        | exact ⟨rfl, rfl⟩
                        | (dsimp only at hk; omega)
                    | false =>
                      simp only [hb3, status, is_connected, requires_connection, get_num_qcls,
                          get_interlock_status, get_key_switch_status, get_laser_armed_status,
                          check_laser_emission, is_tuned, get_ww, call_with_timeout, getS,
                          modifyS, bind_apply, pure_apply, throwE_apply, if_true, if_false,
                          eq_self_iff_true, Bool.false_eq_true] at h
                      cases hr3 : s.drv (s.k + 1 + 1 + 1 + 1 + 1 + 1) with
                      | timeout =>
                        simp only [hr3, status, is_connected, requires_connection,
                            get_num_qcls, get_interlock_status, get_key_switch_status,
                            get_laser_armed_status, check_laser_emission, is_tuned, get_ww,
                            call_with_timeout, getS, modifyS, bind_apply, pure_apply,
                            throwE_apply, if_true, if_false, eq_self_iff_true,
                            Bool.false_eq_true] at h
                        rw [Res.err.injEq] at h
                        obtain ⟨rfl, rfl⟩ := h
                        refine ⟨rfl, ?_, ?_, ?_, ?_, ?_, ?_, ?_⟩ <;> intro hk <;>
                          first
                          | rfl
                          | exact ⟨rfl, rfl⟩
                          | (dsimp only at hk; omega)
                      | completed r3 =>
                        simp only [hr3, status, is_connected, requires_connection,
                            get_num_qcls, get_interlock_status, get_key_switch_status,
                            get_laser_armed_status, check_laser_emission, is_tuned, get_ww,
                            call_with_timeout, getS, modifyS, bind_apply, pure_apply,
                            throwE_apply, if_true, if_false, eq_self_iff_true,
                            Bool.false_eq_true] at h
                        cases hg4 : s.drv (s.k + 1 + 1 + 1 + 1 + 1 + 1 + 1) with
                        | timeout =>
                          simp only [hg4, status, is_connected, requires_connection,
                              get_num_qcls, get_interlock_status, get_key_switch_status,
                              get_laser_armed_status, check_laser_emission, is_tuned, get_ww,
                              call_with_timeout, getS, modifyS, bind_apply, pure_apply,
                              throwE_apply, if_true, if_false, eq_self_iff_true,
                              Bool.false_eq_true] at h
                          rw [Res.err.injEq] at h
                          obtain ⟨rfl, rfl⟩ := h
                          refine ⟨rfl, ?_, ?_, ?_, ?_, ?_, ?_, ?_⟩ <;> intro hk <;>
                            first
                            | rfl
                            | exact ⟨rfl, rfl⟩
                            | (dsimp only at hk; omega)
                        | completed g4 =>
                          simp only [hg4, status, is_connected, requires_connection,
                              get_num_qcls, get_interlock_status, get_key_switch_status,
                              get_laser_armed_status, check_laser_emission, is_tuned, get_ww,
                              call_with_timeout, getS, modifyS, bind_apply, pure_apply,
                              throwE_apply, if_true, if_false, eq_self_iff_true,
                              Bool.false_eq_true] at h
                          cases hb4 : g4.b1 with
                          | true =>
                            simp only [hb4, status, is_connected, requires_connection,
                                get_num_qcls, get_interlock_status, get_key_switch_status,
                                get_laser_armed_status, check_laser_emission, is_tuned, get_ww,
                                call_with_timeout, getS, modifyS, bind_apply, pure_apply,
                                throwE_apply, if_true, if_false, eq_self_iff_true,
                                Bool.false_eq_true] at h
                            rw [Res.err.injEq] at h
                            obtain ⟨rfl, rfl⟩ := h
                            refine ⟨rfl, ?_, ?_, ?_, ?_, ?_, ?_, ?_⟩ <;> intro hk <;>
                              first
                              | rfl
                              | exact ⟨rfl, rfl⟩
                              | (dsimp only at hk; omega)
                          | false =>
                            simp only [hb4, status, is_connected, requires_connection,
                                get_num_qcls, get_interlock_status, get_key_switch_status,
                                get_laser_armed_status, check_laser_emission, is_tuned, get_ww,
                                call_with_timeout, getS, modifyS, bind_apply, pure_apply,
                                throwE_apply, if_true, if_false, eq_self_iff_true,
                                Bool.false_eq_true] at h
                            cases hr4 : s.drv (s.k + 1 + 1 + 1 + 1 + 1 + 1 + 1 + 1) with
                            | timeout =>
                              simp only [hr4, status, is_connected, requires_connection,
                                  get_num_qcls, get_interlock_status, get_key_switch_status,
                                  get_laser_armed_status, check_laser_emission, is_tuned,
                                  get_ww, call_with_timeout, getS, modifyS, bind_apply,
                                  pure_apply, throwE_apply, if_true, if_false,
                                  eq_self_iff_true, Bool.false_eq_true] at h
                              rw [Res.err.injEq] at h
                              obtain ⟨rfl, rfl⟩ := h
                              refine ⟨rfl, ?_, ?_, ?_, ?_, ?_, ?_, ?_⟩ <;> intro hk <;>
                                first
                                | rfl
                                | exact ⟨rfl, rfl⟩
                                | (dsimp only at hk; omega)
                            | completed r4 =>
                              simp only [hr4, status, is_connected, requires_connection,
                                  get_num_qcls, get_interlock_status, get_key_switch_status,
                                  get_laser_armed_status, check_laser_emission, is_tuned,
                                  get_ww, call_with_timeout, getS, modifyS, bind_apply,
                                  pure_apply, throwE_apply, if_true, if_false,
                                  eq_self_iff_true, Bool.false_eq_true] at h
                              cases hg5 : s.drv (s.k + 1 + 1 + 1 + 1 + 1 + 1 + 1 + 1 + 1) with
                              | timeout =>
                                simp only [hg5, status, is_connected, requires_connection,
                                    get_num_qcls, get_interlock_status, get_key_switch_status,
                                    get_laser_armed_status, check_laser_emission, is_tuned,
                                    get_ww, call_with_timeout, getS, modifyS, bind_apply,
                                    pure_apply, throwE_apply, if_true, if_false,
                                    eq_self_iff_true, Bool.false_eq_true] at h
                                rw [Res.err.injEq] at h
                                obtain ⟨rfl, rfl⟩ := h
                                refine ⟨rfl, ?_, ?_, ?_, ?_, ?_, ?_, ?_⟩ <;> intro hk <;>
                                  first
                                  | rfl
                                  | exact ⟨rfl, rfl⟩
                                  | (dsimp only at hk; omega)
                              | completed g5 =>
                                simp only [hg5, status, is_connected, requires_connection,
                                    get_num_qcls, get_interlock_status, get_key_switch_status,
                                    get_laser_armed_status, check_laser_emission, is_tuned,
                                    get_ww, call_with_timeout, getS, modifyS, bind_apply,
                                    pure_apply, throwE_apply, if_true, if_false,
                                    eq_self_iff_true, Bool.false_eq_true] at h
                                cases hb5 : g5.b1 with
                                | true =>
                                  simp only [hb5, status, is_connected, requires_connection,
                                      get_num_qcls, get_interlock_status,
                                      get_key_switch_status, get_laser_armed_status,
                                      check_laser_emission, is_tuned, get_ww,
                                      call_with_timeout, getS, modifyS, bind_apply, pure_apply,
                                      throwE_apply, if_true, if_false, eq_self_iff_true,
                                      Bool.false_eq_true] at h
                                  rw [Res.err.injEq] at h
                                  obtain ⟨rfl, rfl⟩ := h
                                  refine ⟨rfl, ?_, ?_, ?_, ?_, ?_, ?_, ?_⟩ <;> intro hk <;>
                                    first
                                    | rfl
                                    | exact ⟨rfl, rfl⟩
                                    | (dsimp only at hk; omega)
                                | false =>
                                  simp only [hb5, status, is_connected, requires_connection,
                                      get_num_qcls, get_interlock_status,
                                      get_key_switch_status, get_laser_armed_status,
                                      check_laser_emission, is_tuned, get_ww,
                                      call_with_timeout, getS, modifyS, bind_apply, pure_apply,
                                      throwE_apply, if_true, if_false, eq_self_iff_true,
                                      Bool.false_eq_true] at h
                                  cases hr5 : s.drv (s.k + 1 + 1 + 1 + 1 + 1 + 1 + 1 + 1 + 1 + 1) with
                                  | timeout =>
                                    simp only [hr5, status, is_connected, requires_connection,
                                        get_num_qcls, get_interlock_status,
                                        get_key_switch_status, get_laser_armed_status,
                                        check_laser_emission, is_tuned, get_ww,
                                        call_with_timeout, getS, modifyS, bind_apply,
                                        pure_apply, throwE_apply, if_true, if_false,
                                        eq_self_iff_true, Bool.false_eq_true] at h
                                    rw [Res.err.injEq] at h
                                    obtain ⟨rfl, rfl⟩ := h
                                    refine ⟨rfl, ?_, ?_, ?_, ?_, ?_, ?_, ?_⟩ <;> intro hk <;>
                                      first
                                      | rfl
                                      | exact ⟨rfl, rfl⟩
                                      | (dsimp only at hk; omega)
                                  | completed r5 =>
                                    simp only [hr5, status, is_connected, requires_connection,
                                        get_num_qcls, get_interlock_status,
                                        get_key_switch_status, get_laser_armed_status,
                                        check_laser_emission, is_tuned, get_ww,
                                        call_with_timeout, getS, modifyS, bind_apply,
                                        pure_apply, throwE_apply, if_true, if_false,
                                        eq_self_iff_true, Bool.false_eq_true] at h
                                    cases hg6 : s.drv (s.k + 1 + 1 + 1 + 1 + 1 + 1 + 1 + 1 + 1 + 1 + 1) with
                                    | timeout =>
                                      simp only [hg6, status, is_connected,
                                          requires_connection, get_num_qcls,
                                          get_interlock_status, get_key_switch_status,
                                          get_laser_armed_status, check_laser_emission,
                                          is_tuned, get_ww, call_with_timeout, getS, modifyS,
                                          bind_apply, pure_apply, throwE_apply, if_true,
                                          if_false, eq_self_iff_true, Bool.false_eq_true] at h
                                      rw [Res.err.injEq] at h
                                      obtain ⟨rfl, rfl⟩ := h
                                      refine ⟨rfl, ?_, ?_, ?_, ?_, ?_, ?_, ?_⟩ <;> intro hk <;>
                                        first
                                        | rfl
                                        | exact ⟨rfl, rfl⟩
                                        | (dsimp only at hk; omega)
                                    | completed g6 =>
                                      simp only [hg6, status, is_connected,
                                          requires_connection, get_num_qcls,
                                          get_interlock_status, get_key_switch_status,
                                          get_laser_armed_status, check_laser_emission,
                                          is_tuned, get_ww, call_with_timeout, getS, modifyS,
                                          bind_apply, pure_apply, throwE_apply, if_true,
                                          if_false, eq_self_iff_true, Bool.false_eq_true] at h
                                      cases hb6 : g6.b1 with
                                      | true =>
                                        simp only [hb6, status, is_connected,
                                            requires_connection, get_num_qcls,
                                            get_interlock_status, get_key_switch_status,
                                            get_laser_armed_status, check_laser_emission,
                                            is_tuned, get_ww, call_with_timeout, getS, modifyS,
                                            bind_apply, pure_apply, throwE_apply, if_true,
                                            if_false, eq_self_iff_true, Bool.false_eq_true] at h
                                        rw [Res.err.injEq] at h
                                        obtain ⟨rfl, rfl⟩ := h
                                        refine ⟨rfl, ?_, ?_, ?_, ?_, ?_, ?_, ?_⟩ <;> intro hk <;>
                                          first
                                          | rfl
                                          | exact ⟨rfl, rfl⟩
                                          | (dsimp only at hk; omega)
                                      | false =>
                                        simp only [hb6, status, is_connected,
                                            requires_connection, get_num_qcls,
                                            get_interlock_status, get_key_switch_status,
                                            get_laser_armed_status, check_laser_emission,
                                            is_tuned, get_ww, call_with_timeout, getS, modifyS,
                                            bind_apply, pure_apply, throwE_apply, if_true,
                                            if_false, eq_self_iff_true, Bool.false_eq_true] at h
                                        cases hr6 : s.drv (s.k + 1 + 1 + 1 + 1 + 1 + 1 + 1 + 1 + 1 + 1 + 1 + 1) with
                                        | timeout =>
                                          simp only [hr6, status, is_connected,
                                              requires_connection, get_num_qcls,
                                              get_interlock_status, get_key_switch_status,
                                              get_laser_armed_status, check_laser_emission,
                                              is_tuned, get_ww, call_with_timeout, getS,
                                              modifyS, bind_apply, pure_apply, throwE_apply,
                                              if_true, if_false, eq_self_iff_true,
                                              Bool.false_eq_true] at h
                                          rw [Res.err.injEq] at h
                                          obtain ⟨rfl, rfl⟩ := h
                                          refine ⟨rfl, ?_, ?_, ?_, ?_, ?_, ?_, ?_⟩ <;> intro hk <;>
                                            first
                                            | rfl
                                            | exact ⟨rfl, rfl⟩
                                            | (dsimp only at hk; omega)
                                        | completed r6 =>
                                          simp only [hr6, status, is_connected,
                                              requires_connection, get_num_qcls,
                                              get_interlock_status, get_key_switch_status,
                                              get_laser_armed_status, check_laser_emission,
                                              is_tuned, get_ww, call_with_timeout, getS,
                                              modifyS, bind_apply, pure_apply, throwE_apply,
                                              if_true, if_false, eq_self_iff_true,
                                              Bool.false_eq_true] at h
                                          cases hg7 : s.drv (s.k + 1 + 1 + 1 + 1 + 1 + 1 + 1 + 1 + 1 + 1 + 1 + 1 + 1) with
                                          | timeout =>
                                            simp only [hg7, status, is_connected,
                                                requires_connection, get_num_qcls,
                                                get_interlock_status, get_key_switch_status,
                                                get_laser_armed_status, check_laser_emission,
                                                is_tuned, get_ww, call_with_timeout, getS,
                                                modifyS, bind_apply, pure_apply, throwE_apply,
                                                if_true, if_false, eq_self_iff_true,
                                                Bool.false_eq_true] at h
                                            rw [Res.err.injEq] at h
                                            obtain ⟨rfl, rfl⟩ := h
                                            refine ⟨rfl, ?_, ?_, ?_, ?_, ?_, ?_, ?_⟩ <;> intro hk <;>
                                              first
                                              | rfl
                                              | exact ⟨rfl, rfl⟩
                                              | (dsimp only at hk; omega)
                                          | completed g7 =>
                                            simp only [hg7, status, is_connected,
                                                requires_connection, get_num_qcls,
                                                get_interlock_status, get_key_switch_status,
                                                get_laser_armed_status, check_laser_emission,
                                                is_tuned, get_ww, call_with_timeout, getS,
                                                modifyS, bind_apply, pure_apply, throwE_apply,
                                                if_true, if_false, eq_self_iff_true,
                                                Bool.false_eq_true] at h
                                            cases hb7 : g7.b1 with
                                            | true =>
                                              simp only [hb7, status, is_connected,
                                                  requires_connection, get_num_qcls,
                                                  get_interlock_status, get_key_switch_status,
                                                  get_laser_armed_status, check_laser_emission,
                                                  is_tuned, get_ww, call_with_timeout, getS,
                                                  modifyS, bind_apply, pure_apply,
                                                  throwE_apply, if_true, if_false,
                                                  eq_self_iff_true, Bool.false_eq_true] at h
                                              rw [Res.err.injEq] at h
                                              obtain ⟨rfl, rfl⟩ := h
                                              refine ⟨rfl, ?_, ?_, ?_, ?_, ?_, ?_, ?_⟩ <;> intro hk <;>
                                                first
                                                | rfl
                                                | exact ⟨rfl, rfl⟩
                                                | (dsimp only at hk; omega)
                                            | false =>
                                              simp only [hb7, status, is_connected,
                                                  requires_connection, get_num_qcls,
                                                  get_interlock_status, get_key_switch_status,
                                                  get_laser_armed_status, check_laser_emission,
                                                  is_tuned, get_ww, call_with_timeout, getS,
                                                  modifyS, bind_apply, pure_apply,
                                                  throwE_apply, if_true, if_false,
                                                  eq_self_iff_true, Bool.false_eq_true] at h
                                              cases hr7 : s.drv (s.k + 1 + 1 + 1 + 1 + 1 + 1 + 1 + 1 + 1 + 1 + 1 + 1 + 1 + 1) with
                                              | timeout =>
                                                simp only [hr7, status, is_connected,
                                                    requires_connection, get_num_qcls,
                                                    get_interlock_status,
                                                    get_key_switch_status,
                                                    get_laser_armed_status,
                                                    check_laser_emission, is_tuned, get_ww,
                                                    call_with_timeout, getS, modifyS,
                                                    bind_apply, pure_apply, throwE_apply,
                                                    if_true, if_false, eq_self_iff_true,
                                                    Bool.false_eq_true] at h
                                                rw [Res.err.injEq] at h
                                                obtain ⟨rfl, rfl⟩ := h
                                                refine ⟨rfl, ?_, ?_, ?_, ?_, ?_, ?_, ?_⟩ <;> intro hk <;>
                                                  first
                                                  | rfl
                                                  | exact ⟨rfl, rfl⟩
                                                  | (dsimp only at hk; omega)
                                              | completed r7 =>
                                                simp only [hr7, status, is_connected,
                                                    requires_connection, get_num_qcls,
                                                    get_interlock_status,
                                                    get_key_switch_status,
                                                    get_laser_armed_status,
                                                    check_laser_emission, is_tuned, get_ww,
                                                    call_with_timeout, getS, modifyS,
                                                    bind_apply, pure_apply, throwE_apply,
                                                    if_true, if_false, eq_self_iff_true,
                                                    Bool.false_eq_true] at h
                                                exact Res.noConfusion h

/-- C10 instantiated: a status pass that raises on its very first driver call
(a timeout) leaves the snapshot untouched — here checked for the QCL-count
and wavelength/wavenumber fields. -/
theorem claimC10_witness :
    (Res.stateOf (status (mkLaser drvTimeout))).st.numQCLs
        = (mkLaser drvTimeout).st.numQCLs ∧
    (Res.stateOf (status (mkLaser drvTimeout))).st.wl = (mkLaser drvTimeout).st.wl ∧
    (Res.stateOf (status (mkLaser drvTimeout))).st.wn = (mkLaser drvTimeout).st.wn := by
  have h := claimC10_theorem (mkLaser drvTimeout)
    (PyError.mircatError (-2) "SDK call timed out.") { mkLaser drvTimeout with k := 1 } rfl
  exact ⟨h.2.1 (by decide), (h.2.2.2.2.2.2.2 (by decide)).1, (h.2.2.2.2.2.2.2 (by decide)).2⟩

end MIRcatPy
